import Mathlib

/-!
Verification of the positioned-read emulation in
`src/tools/singlejar/port.cc` (the Windows `pread` shim).

The C function under study is:

```
ssize_t pread(int fd, void *buf, size_t count, off64_t offset) {
  DWORD ret = -1;
  HANDLE hFile = reinterpret_cast<HANDLE>(_get_osfhandle(fd));
  if (hFile) {
    OVERLAPPED overlap;
    memset(&overlap, 0, sizeof(OVERLAPPED));
    overlap.Offset = offset;
    if (!::ReadFile(hFile, buf, count, &ret, &overlap)) {
      return -1;
    }
  }
  return ret;
}
```

The embedding below models the machine-integer conversions explicitly:
`DWORD` values are natural numbers reduced mod 2^32 = 4294967296, the
`off64_t` offset is an `Int` whose conversion to the `DWORD` field
`Offset` is `% 4294967296`, the `size_t` count is a `Nat` whose
conversion to the `DWORD` byte-count parameter of `ReadFile` is
`% 4294967296`, and the final `return ret;` converts the unsigned
32-bit `ret` to the signed 64-bit `ssize_t` by zero extension.

The host platform primitives `_get_osfhandle` and `ReadFile` are not
part of the repository; they are modelled from the specification's
description of the consumed environment (an fd-to-native-handle
resolution map, and a synchronous read-at-position primitive that
returns the transferred byte count, transfers `min count (size - pos)`
bytes, succeeds with 0 bytes at or past end-of-file, and fails
explicitly on a handle that is not a valid readable file object).
-/

/-- The Windows `OVERLAPPED` structure, as the source uses it: two
internal fields, a low 32-bit `Offset` field, a high 32-bit
`OffsetHigh` field, and an event handle.  All fields that hold 32-bit
unsigned quantities are naturals. -/
structure OVERLAPPED where
  Internal : Nat
  InternalHigh : Nat
  Offset : Nat
  OffsetHigh : Nat
  hEvent : Int

/-- The host environment consumed by `pread`:
`osfhandle` models `_get_osfhandle` composed with the
`reinterpret_cast` to `HANDLE` — it maps an integer descriptor to the
numeric value of the native handle (the platform failure value
`INVALID_HANDLE_VALUE` is `-1`, and a null handle is `0`);
`files` tells which handle values are valid readable native file
objects, and gives the byte content of the underlying file. -/
structure Env where
  osfhandle : Int → Int
  files : Int → Option (List Nat)

/-- The mutable state a `pread` call can observe or touch: the
caller's buffer, the C error-state variable `errno`, and each
descriptor's sequential read cursor (the position a plain unpositioned
read would use and advance). -/
structure SysState where
  buffer : List Nat
  errno : Int
  filePos : Int → Int

/-- The `OVERLAPPED` value the source builds: `memset` to zero, then
`overlap.Offset = offset;` — the `off64_t` is converted to the 32-bit
`DWORD` field, i.e. reduced mod 2^32; `OffsetHigh` keeps the value 0
written by `memset`. -/
def mkOverlapped (offset : Int) : OVERLAPPED :=
  { Internal := 0
    InternalHigh := 0
    Offset := (offset % 4294967296).toNat
    OffsetHigh := 0
    hEvent := 0 }

/-- Modelled from the spec: the platform synchronous positioned-read
primitive `ReadFile`, absent from the repository.  Per the spec's
interface section it takes the native handle, the destination buffer,
a byte length and a position record, and returns the transferred byte
count or an explicit failure indicator; per the spec's error taxonomy
it fails when the handle is not a valid readable native file object;
per the spec's short-read/EOF description it succeeds with 0 bytes
transferred at or beyond end-of-file and otherwise transfers
`min length (size - position)` bytes into the front of the buffer. -/
def ReadFile (env : Env) (hFile : Int) (buf : List Nat)
    (nNumberOfBytesToRead : Nat) (overlap : OVERLAPPED) :
    Option (Nat × List Nat) :=
  match env.files hFile with
  | none => none
  | some content =>
      let pos := overlap.Offset + 4294967296 * overlap.OffsetHigh
      let n := min nNumberOfBytesToRead (content.length - pos)
      some (n, (content.drop pos).take n ++ buf.drop n)

/-- The `pread` function of `port.cc`, embedded statement by
statement.  `ret` starts as the `DWORD` (unsigned 32-bit) value of
`-1`, i.e. 4294967295.  The handle is resolved; if it is nonzero a
zeroed `OVERLAPPED` carrying the offset is built and `ReadFile` is
issued with the byte count `count` converted to `DWORD`
(`% 4294967296`); on `ReadFile` failure the function returns `-1`,
on success `ret` holds the transferred count.  The final return
converts the unsigned 32-bit `ret` to the signed `ssize_t` by zero
extension.  The call returns the `ssize_t` result together with the
state after the call. -/
def pread (env : Env) (fd : Int) (count : Nat) (offset : Int)
    (s : SysState) : Int × SysState :=
  let ret : Nat := 4294967295
  let hFile : Int := env.osfhandle fd
  if hFile ≠ 0 then
    let overlap := mkOverlapped offset
    match ReadFile env hFile s.buffer (count % 4294967296) overlap with
    | none => (-1, s)
    | some (n, buf) => ((n : Int), { s with buffer := buf })
  else
    ((ret : Int), s)

/-- The effective file position `pread` reads from: the value of the
64-bit offset after its conversion into the 32-bit `Offset` field. -/
def effPos (offset : Int) : Nat := (offset % 4294967296).toNat

/-- The byte count a successful emulated read transfers: the `DWORD`
truncation of `count`, capped by the bytes available from the
effective position to end-of-file. -/
def xfer (count : Nat) (len : Nat) (offset : Int) : Nat :=
  min (count % 4294967296) (len - effPos offset)

/-- A 10-byte file holding the ASCII bytes of `"ABCDEFGHIJ"`. -/
def fileABCDEFGHIJ : List Nat := [65, 66, 67, 68, 69, 70, 71, 72, 73, 74]

/-- A concrete environment: descriptor 3 resolves to the nonzero
native handle 7, which is a valid readable file object holding
`"ABCDEFGHIJ"`; every other descriptor fails to resolve
(`INVALID_HANDLE_VALUE`, i.e. `-1`). -/
def envABC : Env :=
  { osfhandle := fun fd => if fd = 3 then 7 else -1
    files := fun h => if h = 7 then some fileABCDEFGHIJ else none }

/-- A concrete environment in which every descriptor resolves to the
null handle, which is not a valid file object. -/
def envNull : Env :=
  { osfhandle := fun _ => 0
    files := fun _ => none }

/-- A concrete environment in which every descriptor fails to resolve:
`_get_osfhandle` yields `INVALID_HANDLE_VALUE` (`-1`), a handle value
that is not a valid file object. -/
def envBad : Env :=
  { osfhandle := fun _ => -1
    files := fun _ => none }

/-- A concrete initial state: a 4-byte zeroed buffer, `errno` 0, all
cursors at 0. -/
def s0 : SysState :=
  { buffer := [0, 0, 0, 0]
    errno := 0
    filePos := fun _ => 0 }

/-- Evaluation of `pread` when the handle resolves to a nonzero value
that is a valid readable file object: the result is the transferred
count `xfer count content.length offset`, and exactly that many bytes
of the file, starting at the effective position, are written into the
front of the buffer. -/
theorem pread_valid (env : Env) (fd : Int) (count : Nat) (offset : Int)
    (s : SysState) (content : List Nat)
    (h0 : env.osfhandle fd ≠ 0)
    (hf : env.files (env.osfhandle fd) = some content) :
    pread env fd count offset s =
      (((xfer count content.length offset : Nat) : Int),
       { s with buffer :=
          (content.drop (effPos offset)).take (xfer count content.length offset)
            ++ s.buffer.drop (xfer count content.length offset) }) := by
  simp [pread, ReadFile, mkOverlapped, xfer, effPos, h0, hf]

/-- Evaluation of `pread` when the handle resolves to a nonzero value
that is not a valid file object: `ReadFile` fails and the call returns
`-1` with the state unchanged. -/
theorem pread_invalid (env : Env) (fd : Int) (count : Nat) (offset : Int)
    (s : SysState)
    (h0 : env.osfhandle fd ≠ 0)
    (hf : env.files (env.osfhandle fd) = none) :
    pread env fd count offset s = (-1, s) := by
  simp [pread, ReadFile, mkOverlapped, h0, hf]

/-- Evaluation of `pread` when the handle resolves to the null value:
no read is attempted and the initial `DWORD` value of `ret`
(4294967295) is returned zero-extended, with the state unchanged. -/
theorem pread_null (env : Env) (fd : Int) (count : Nat) (offset : Int)
    (s : SysState) (h0 : env.osfhandle fd = 0) :
    pread env fd count offset s = (4294967295, s) := by
  simp [pread, h0]

/-- The number of bytes `ReadFile` writes never exceeds what is
available, so the written prefix has length exactly `xfer`. -/
theorem length_take_xfer (count : Nat) (content : List Nat) (offset : Int) :
    ((content.drop (effPos offset)).take (xfer count content.length offset)).length
      = xfer count content.length offset := by
  rw [List.length_take, List.length_drop]
  exact Nat.min_eq_left (Nat.min_le_right _ _)

/-- Repeating a `pread` call with identical arguments on the state the
first call produced gives back exactly the first call's result and
state: the bytes rewritten into the buffer are the ones already there. -/
theorem pread_idem (env : Env) (fd : Int) (count : Nat) (offset : Int)
    (s : SysState) :
    pread env fd count offset ((pread env fd count offset s).2)
      = pread env fd count offset s := by
  by_cases h0 : env.osfhandle fd = 0
  · rw [pread_null env fd count offset s h0]
    exact pread_null env fd count offset _ h0
  · cases hf : env.files (env.osfhandle fd) with
    | none =>
        rw [pread_invalid env fd count offset s h0 hf]
        exact pread_invalid env fd count offset _ h0 hf
    | some content =>
        rw [pread_valid env fd count offset s content h0 hf]
        rw [pread_valid env fd count offset
          { s with buffer :=
              (content.drop (effPos offset)).take (xfer count content.length offset)
                ++ s.buffer.drop (xfer count content.length offset) } content h0 hf]
        congr 2
        rw [List.drop_left' (length_take_xfer count content offset)]

/-- **C1 counterexample**: descriptor 3 is valid and readable, the
offset 4294967296 is at or beyond the 10-byte file's end-of-file, yet
`pread` neither returns 0 nor leaves the buffer untouched: the offset
is truncated to the 32-bit `Offset` field, so the read starts at
position 0 and transfers 4 bytes. -/
theorem C1_counterexample :
    envABC.files (envABC.osfhandle 3) = some fileABCDEFGHIJ ∧
    (fileABCDEFGHIJ.length : Int) ≤ 4294967296 ∧
    ¬ ((pread envABC 3 4 4294967296 s0).1 = 0 ∧
       (pread envABC 3 4 4294967296 s0).2.buffer = s0.buffer) := by
  decide

/-- **C1** (amended): for every valid readable descriptor and every
offset whose effective value after the 32-bit truncation
(`effPos offset = offset % 2^32`, the position actually read from) is
at or beyond end-of-file — in particular every offset below 2^32 at or
beyond end-of-file — `pread` returns 0 and does not write into the
buffer. -/
theorem C1_eof_read_returns_zero (env : Env) (fd : Int) (count : Nat)
    (offset : Int) (s : SysState) (content : List Nat)
    (h0 : env.osfhandle fd ≠ 0)
    (hf : env.files (env.osfhandle fd) = some content)
    (heof : content.length ≤ effPos offset) :
    (pread env fd count offset s).1 = 0 ∧
    (pread env fd count offset s).2.buffer = s.buffer := by
  rw [pread_valid env fd count offset s content h0 hf]
  have hx : xfer count content.length offset = 0 := by
    unfold xfer
    rw [Nat.sub_eq_zero_of_le heof]
    exact Nat.min_zero _
  simp [hx]

/-- Witness for C1: descriptor 3 on the 10-byte file, offset 10
(exactly end-of-file): `pread` returns 0 and leaves the buffer as it
was. -/
theorem C1_eof_read_returns_zero_witness :
    envABC.osfhandle 3 ≠ 0 ∧
    envABC.files (envABC.osfhandle 3) = some fileABCDEFGHIJ ∧
    fileABCDEFGHIJ.length ≤ effPos 10 ∧
    ((pread envABC 3 4 10 s0).1 = 0 ∧
     (pread envABC 3 4 10 s0).2.buffer = s0.buffer) :=
  ⟨by decide, by decide, by decide,
   C1_eof_read_returns_zero envABC 3 4 10 s0 fileABCDEFGHIJ
     (by decide) (by decide) (by decide)⟩

/-- **C2** (code bug): when the descriptor resolves to the null
handle — a value that is not a valid native file object — the guard
`if (hFile)` skips the read and the function falls through to
`return ret;` with `ret` still holding the `DWORD` initializer `-1`,
which zero-extends to the positive value 4294967295 instead of the
negative sentinel the author's `ret = -1` initializer and the
spec intend. -/
theorem C2_null_handle_positive_return :
    envNull.files (envNull.osfhandle 5) = none ∧
    (pread envNull 5 4 0 s0).1 = 4294967295 ∧
    ¬ (pread envNull 5 4 0 s0).1 < 0 := by
  decide

/-- **C3 counterexample**: for the requested offset 2^32 the
`OVERLAPPED` the code builds does not carry the 64-bit offset in its
low/high 32-bit fields: only the low field is assigned (truncating mod
2^32) and the high field keeps the 0 written by `memset`, so the
carried position is 0, not 2^32. -/
theorem C3_counterexample :
    ¬ (((mkOverlapped 4294967296).Offset : Int)
        + 4294967296 * ((mkOverlapped 4294967296).OffsetHigh : Int)
        = 4294967296) := by
  decide

/-- **C3** (amended): the `OVERLAPPED` built for the read is
zero-initialized except for its low 32-bit `Offset` field, which
carries `offset % 2^32`; the high field stays 0.  Consequently the
structure carries the full requested 64-bit offset exactly when
`0 ≤ offset < 2^32`. -/
theorem C3_overlapped_offset (offset : Int) (h0 : 0 ≤ offset) :
    mkOverlapped offset =
      { Internal := 0
        InternalHigh := 0
        Offset := (offset % 4294967296).toNat
        OffsetHigh := 0
        hEvent := 0 } ∧
    (offset < 4294967296 →
      ((mkOverlapped offset).Offset : Int)
        + 4294967296 * ((mkOverlapped offset).OffsetHigh : Int) = offset) := by
  refine ⟨rfl, fun hlt => ?_⟩
  have hmod : offset % 4294967296 = offset := Int.emod_eq_of_lt h0 hlt
  simp [mkOverlapped, hmod, Int.toNat_of_nonneg h0]

/-- Witness for C3: at the in-range offset 5 the built `OVERLAPPED`
is the zeroed record with low field 5 and carries the full offset. -/
theorem C3_overlapped_offset_witness :
    (0 : Int) ≤ 5 ∧
    (mkOverlapped 5 =
      { Internal := 0
        InternalHigh := 0
        Offset := ((5 : Int) % 4294967296).toNat
        OffsetHigh := 0
        hEvent := 0 } ∧
     ((5 : Int) < 4294967296 →
       ((mkOverlapped 5).Offset : Int)
         + 4294967296 * ((mkOverlapped 5).OffsetHigh : Int) = 5)) :=
  ⟨by decide, C3_overlapped_offset 5 (by decide)⟩

/-- **C4** (code bug): the null-handle fall-through returns the
non-negative value 4294967295 even though no byte was read and only 4
bytes were requested: a "successful" (non-negative) return that is
neither the number of bytes read nor bounded by `count`. -/
theorem C4_null_handle_result_exceeds_count :
    (pread envNull 5 4 0 s0).1 = 4294967295 ∧
    (pread envNull 5 4 0 s0).2.buffer = s0.buffer ∧
    ¬ (pread envNull 5 4 0 s0).1 ≤ (4 : Int) := by
  decide

/-- **C5**: when the platform read primitive reports failure, `pread`
returns `-1`, and the error-state variable `errno` is left exactly as
it was before the call — the implementation never assigns it. -/
theorem C5_readfile_failure_no_errno (env : Env) (fd : Int) (count : Nat)
    (offset : Int) (s : SysState)
    (h0 : env.osfhandle fd ≠ 0)
    (hf : env.files (env.osfhandle fd) = none) :
    (pread env fd count offset s).1 = -1 ∧
    (pread env fd count offset s).2.errno = s.errno := by
  rw [pread_invalid env fd count offset s h0 hf]
  exact ⟨rfl, rfl⟩

/-- Witness for C5: descriptor 5 resolves to `INVALID_HANDLE_VALUE`
(`-1`, a nonzero handle that is not a valid file object), the read
fails, `pread` returns `-1` and `errno` keeps its prior value. -/
theorem C5_readfile_failure_no_errno_witness :
    envBad.osfhandle 5 ≠ 0 ∧
    envBad.files (envBad.osfhandle 5) = none ∧
    ((pread envBad 5 4 0 s0).1 = -1 ∧
     (pread envBad 5 4 0 s0).2.errno = s0.errno) :=
  ⟨by decide, by decide,
   C5_readfile_failure_no_errno envBad 5 4 0 s0 (by decide) (by decide)⟩

/-- **C6**: on every path — null handle, failed read, successful
read — the state after `pread` agrees with the state before on `errno`
and on every descriptor's sequential read cursor; the buffer is the
only state component the call can change. -/
theorem C6_no_side_effects (env : Env) (fd : Int) (count : Nat)
    (offset : Int) (s : SysState) :
    (pread env fd count offset s).2.errno = s.errno ∧
    (pread env fd count offset s).2.filePos = s.filePos := by
  by_cases h0 : env.osfhandle fd = 0
  · rw [pread_null env fd count offset s h0]
    exact ⟨rfl, rfl⟩
  · cases hf : env.files (env.osfhandle fd) with
    | none =>
        rw [pread_invalid env fd count offset s h0 hf]
        exact ⟨rfl, rfl⟩
    | some content =>
        rw [pread_valid env fd count offset s content h0 hf]
        exact ⟨rfl, rfl⟩

/-- **C7**: on the 10-byte file `"ABCDEFGHIJ"`, reading 4 bytes at
offset 3 returns 4 and the buffer holds `"DEFG"`; then reading 4 bytes
at offset 8 returns 2 and the first two buffer bytes are `"IJ"`; then
reading 4 bytes at offset 10 returns 0. -/
theorem C7_scenario :
    (pread envABC 3 4 3 s0).1 = 4 ∧
    (pread envABC 3 4 3 s0).2.buffer = [68, 69, 70, 71] ∧
    (pread envABC 3 4 8 ((pread envABC 3 4 3 s0).2)).1 = 2 ∧
    ((pread envABC 3 4 8 ((pread envABC 3 4 3 s0).2)).2.buffer).take 2
      = [73, 74] ∧
    (pread envABC 3 4 10
        ((pread envABC 3 4 8 ((pread envABC 3 4 3 s0).2)).2)).1 = 0 := by
  decide

/-- **C8**: a second `pread` with the same descriptor, count and
offset, performed on the state the first call left behind, returns the
same result and leaves the same buffer contents as the first call. -/
theorem C8_idempotent (env : Env) (fd : Int) (count : Nat) (offset : Int)
    (s : SysState) :
    (pread env fd count offset ((pread env fd count offset s).2)).1
      = (pread env fd count offset s).1 ∧
    (pread env fd count offset ((pread env fd count offset s).2)).2.buffer
      = (pread env fd count offset s).2.buffer := by
  rw [pread_idem env fd count offset s]
  exact ⟨rfl, rfl⟩

/-- **C9**: on the emulated read path the byte count handed to the
platform read primitive is `count % 2^32` (the `size_t` argument is
converted to the 32-bit `DWORD` parameter), so the result of a
successful read is `min (count % 2^32) (available bytes)`; in
particular, whenever `count ≥ 2^32` the call transfers strictly fewer
bytes than the caller asked for. -/
theorem C9_count_truncated (env : Env) (fd : Int) (count : Nat)
    (offset : Int) (s : SysState) (content : List Nat)
    (h0 : env.osfhandle fd ≠ 0)
    (hf : env.files (env.osfhandle fd) = some content) :
    (pread env fd count offset s).1
      = ((min (count % 4294967296) (content.length - effPos offset) : Nat) : Int) ∧
    (4294967296 ≤ count → (pread env fd count offset s).1 < (count : Int)) := by
  rw [pread_valid env fd count offset s content h0 hf]
  constructor
  · rfl
  · intro hc
    show ((xfer count content.length offset : Nat) : Int) < (count : Int)
    have h1 : xfer count content.length offset < 4294967296 :=
      lt_of_le_of_lt (Nat.min_le_left _ _) (Nat.mod_lt count (by norm_num))
    exact_mod_cast lt_of_lt_of_le h1 hc

/-- Witness for C9: with `count = 2^32` on the 10-byte file at offset
0, the truncated request is 0 bytes, so `pread` returns 0 although the
caller asked for 2^32 bytes and 10 were available. -/
theorem C9_count_truncated_witness :
    envABC.osfhandle 3 ≠ 0 ∧
    envABC.files (envABC.osfhandle 3) = some fileABCDEFGHIJ ∧
    ((pread envABC 3 4294967296 0 s0).1
        = ((min (4294967296 % 4294967296) (fileABCDEFGHIJ.length - effPos 0) : Nat) : Int) ∧
     (4294967296 ≤ 4294967296 →
        (pread envABC 3 4294967296 0 s0).1 < ((4294967296 : Nat) : Int))) :=
  ⟨by decide, by decide,
   C9_count_truncated envABC 3 4294967296 0 s0 fileABCDEFGHIJ
     (by decide) (by decide)⟩

/-- **C10**: when the resolved native handle is null, the guarded
block is skipped entirely — no read is attempted, the buffer is left
as it was — and `pread` returns `ret`'s initial `DWORD` value, the
unsigned 32-bit reading of `-1` zero-extended to `ssize_t`: the
positive value 4294967295, not a negative value. -/
theorem C10_null_handle_return (env : Env) (fd : Int) (count : Nat)
    (offset : Int) (s : SysState) (h0 : env.osfhandle fd = 0) :
    (pread env fd count offset s).1 = 4294967295 ∧
    0 < (pread env fd count offset s).1 ∧
    (pread env fd count offset s).2.buffer = s.buffer := by
  rw [pread_null env fd count offset s h0]
  refine ⟨rfl, ?_, rfl⟩
  norm_num

/-- Witness for C10: in the environment where every descriptor
resolves to the null handle, `pread` on descriptor 5 returns the
positive value 4294967295 and leaves the buffer unchanged. -/
theorem C10_null_handle_return_witness :
    envNull.osfhandle 5 = 0 ∧
    ((pread envNull 5 4 0 s0).1 = 4294967295 ∧
     0 < (pread envNull 5 4 0 s0).1 ∧
     (pread envNull 5 4 0 s0).2.buffer = s0.buffer) :=
  ⟨by decide, C10_null_handle_return envNull 5 4 0 s0 (by decide)⟩
